import Mathlib

/-!
Verification of the mixcloud-backup LRC-generation and embedding core.

The Python sources (src/mixcloud_common.py, src/mixcloud_match_to_lrc.py,
src/mixcloud_orphans.py) are shallowly embedded: pure string/number
functions become Lean functions over String / ℚ / ℤ; Python float
arithmetic is modelled with exact rationals; values that Python represents
as None become Option; a Python function that can raise is modelled as an
Option-returning function (none = exception); the mutagen tag objects and
on-disk audio containers are modelled as explicit state records.
-/

namespace MixcloudBackup

/-! ## Python string formatting helpers

These model the CPython format specifiers used in the sources:
a nonnegative integer rendered zero-padded to a minimum width of 2
(the 02d specifier applied to a natural), the same specifier applied to a
possibly negative integer (the sign counts toward the width), and a
substring-containment test (the Python in operator on strings).
-/

/-- Python format 02d of a nonnegative integer: zero-pad to at least two
digits, wider numbers are rendered in full (unbounded width). -/
def pad2 (n : Nat) : String :=
  if n < 10 then "0" ++ Nat.repr n else Nat.repr n

/-- Python format 02d of an integer: for a negative value the minus sign
counts toward the minimum width 2, so -5 renders as "-5". -/
def intPad2 (m : ℤ) : String :=
  if m < 0 then "-" ++ Nat.repr m.natAbs else pad2 m.toNat

/-- The Python in operator on strings: needle occurs as a contiguous
substring of hay. -/
def containsSub (hay needle : String) : Bool :=
  hay.toList.tails.any (fun t => needle.toList.isPrefixOf t)

/-- Python str.lower applied characterwise; the tag keys compared in the
sources are ASCII, where this agrees with Python. -/
def strToLower (s : String) : String :=
  ⟨s.toList.map Char.toLower⟩

/-! ## mixcloud_common.format_lrc_timestamp

Python source (src/mixcloud_common.py, lines 118-134):
m is the float floor-division of seconds by 60 converted to int, s is
seconds mod 60 (Python float mod with a positive modulus, so s lies in
[0, 60)), and the result is the f-string bracket, m at 02d, colon,
s at 05.2f, bracket.  The 05.2f specifier renders s rounded to two
decimals, zero-padded to a total width of 5 (hence a two-digit integer
part for s below 100).  CPython rounds the underlying binary double to
even at exact half-way points; the rational model uses nearest rounding,
which agrees off the half-way boundaries exercised here. -/
def format_lrc_timestamp (seconds : ℚ) : String :=
  let m : ℤ := ⌊seconds / 60⌋
  let s : ℚ := seconds - 60 * m
  let c : ℤ := round (100 * s)
  "[" ++ intPad2 m ++ ":" ++ pad2 (c.toNat / 100) ++ "." ++ pad2 (c.toNat % 100) ++ "]"

/-- Evaluation helper: once the floor and the rounded centiseconds are
known, the rendered timestamp is pure string computation. -/
lemma format_lrc_timestamp_eq (q : ℚ) (m c : ℤ)
    (hm : ⌊q / 60⌋ = m) (hc : round (100 * (q - 60 * (m : ℚ))) = c) :
    format_lrc_timestamp q =
      "[" ++ intPad2 m ++ ":" ++ pad2 (c.toNat / 100) ++ "." ++ pad2 (c.toNat % 100) ++ "]" := by
  simp only [format_lrc_timestamp, hm]
  rw [hc]

example : format_lrc_timestamp 0 = "[00:00.00]" := by
  rw [format_lrc_timestamp_eq 0 0 0 (by norm_num) (by norm_num [round_eq])]
  decide

example : format_lrc_timestamp (131 / 2) = "[01:05.50]" := by
  rw [format_lrc_timestamp_eq (131 / 2) 1 550 (by norm_num) (by norm_num [round_eq])]
  decide

example : format_lrc_timestamp 3661 = "[61:01.00]" := by
  rw [format_lrc_timestamp_eq 3661 61 100 (by norm_num) (by norm_num [round_eq])]
  decide

example : format_lrc_timestamp 7200 = "[120:00.00]" := by
  rw [format_lrc_timestamp_eq 7200 120 0 (by norm_num) (by norm_num [round_eq])]
  decide

example : format_lrc_timestamp (59999 / 1000) = "[00:60.00]" := by
  rw [format_lrc_timestamp_eq (59999 / 1000) 0 6000 (by norm_num) (by norm_num [round_eq])]
  decide

example : format_lrc_timestamp (3 / 500) = "[00:00.01]" := by
  rw [format_lrc_timestamp_eq (3 / 500) 0 1 (by norm_num) (by norm_num [round_eq])]
  decide

example : format_lrc_timestamp (-300) = "[-5:00.00]" := by
  rw [format_lrc_timestamp_eq (-300) (-5) 0 (by norm_num) (by norm_num [round_eq])]
  decide

/-! ## Tag objects and mixcloud_match_to_lrc.extract_mixcloud_url

A mutagen tag mapping is modelled as an association list from field names
to tag values; Python dict lookup returns the first binding.  A tag value
is one of the object shapes the duck-typed _normalize_tag_value
distinguishes: a frame exposing a url attribute (WXXX / WPUB / WOAS), a
frame exposing a text attribute holding a list (TXXX), a plain list of
strings (MP4 / Vorbis fields), or a bare string.  Each frame constructor
also carries the string the Python built-in str would produce for the
whole object, which _normalize_tag_value falls back to when the
attribute value is empty. -/

inductive TagValue : Type
  | urlFrame (url : String) (objStr : String)
  | textFrame (text : List String) (objStr : String)
  | listVal (vals : List String) (objStr : String)
  | strVal (s : String)
deriving DecidableEq

/-- A tag mapping: field name to value, first binding wins. -/
abbrev Tags : Type := List (String × TagValue)

/-- Exact-key lookup in the mapping (Python: key in tags / tags[key]). -/
def lookupExact (tags : Tags) (key : String) : Option TagValue :=
  match tags with
  | [] => none
  | (k, v) :: rest => if k = key then some v else lookupExact rest key

/-- Lookup by case-insensitively comparing lowered keys, in key order
(the fallback loop of _get_tag_value). -/
def lookupLower (tags : Tags) (keyLower : String) : Option TagValue :=
  match tags with
  | [] => none
  | (k, v) :: rest => if strToLower k = keyLower then some v else lookupLower rest keyLower

/-- Python _get_tag_value (src/mixcloud_match_to_lrc.py, lines 20-27):
exact key match first, then a case-insensitive scan over the keys. -/
def get_tag_value (tags : Tags) (key : String) : Option TagValue :=
  match lookupExact tags key with
  | some v => some v
  | none => lookupLower tags (strToLower key)

/-- Python _normalize_tag_value (lines 30-44): a url attribute that is a
nonempty string wins; then a text attribute (first element of a nonempty
list, else the str of the attribute); then the first element of a plain
nonempty list; otherwise str of the value.  none models the None input. -/
def normalize_tag_value (value : Option TagValue) : Option String :=
  match value with
  | none => none
  | some (.urlFrame url objStr) => if url ≠ "" then some url else some objStr
  | some (.textFrame text objStr) =>
      match text with
      | t :: _ => some t
      | [] => some objStr
  | some (.listVal vals objStr) =>
      match vals with
      | v :: _ => some v
      | [] => some objStr
  | some (.strVal s) => some s

/-- One candidate key of extract_mixcloud_url: the value is accepted only
if it normalizes to a nonempty string containing mixcloud.com (the
Python condition if url and mixcloud.com in url). -/
def tryKey (tags : Tags) (key : String) : Option String :=
  match normalize_tag_value (get_tag_value tags key) with
  | some url => if url ≠ "" ∧ containsSub url "mixcloud.com" then some url else none
  | none => none

/-- First accepted candidate over a list of keys (one source loop). -/
def scanKeys (tags : Tags) : List String → Option String
  | [] => none
  | k :: ks =>
      match tryKey tags k with
      | some u => some u
      | none => scanKeys tags ks

/-- Python extract_mixcloud_url (src/mixcloud_match_to_lrc.py, lines
47-68): the first loop scans TXXX:purl, WXXX:purl, WPUB, WOAS; the second
loop scans purl, url; finally the comment field is tried.  Every branch
applies the same nonempty-and-contains-mixcloud.com acceptance test. -/
def extract_mixcloud_url (tags : Tags) : Option String :=
  match scanKeys tags ["TXXX:purl", "WXXX:purl", "WPUB", "WOAS"] with
  | some u => some u
  | none =>
      match scanKeys tags ["purl", "url"] with
      | some u => some u
      | none => tryKey tags "comment"

/-! ## Tracklist sections and mixcloud_match_to_lrc.generate_lrc_content

A section dict from the GraphQL tracklist has a __typename discriminator
(TrackSection or ChapterSection), an optional startSeconds, the
artistName / songName strings of a track section, and an optional chapter
string.  generate_lrc_content applies format_lrc_timestamp to each
startSeconds value; in Python a section whose startSeconds is still None
makes that call raise a TypeError, so the rendering is modelled as an
Option-valued function with none for the raised exception. -/

inductive SectionType : Type
  | trackSection
  | chapterSection
deriving DecidableEq

structure Section : Type where
  typename : SectionType
  startSeconds : Option ℚ
  artistName : String := ""
  songName : String := ""
  chapter : Option String := none
deriving DecidableEq

/-- The display label of one LRC line (lines 89-92 of the source): for a
TrackSection the artist and song joined by an en dash, for a
ChapterSection the chapter text with the empty string as dict-get
default. -/
def section_label (s : Section) : String :=
  match s.typename with
  | .trackSection => s.artistName ++ " – " ++ s.songName
  | .chapterSection => s.chapter.getD ""

/-- One body line of the LRC document, numbered i (1-based, 02d padded).
A missing startSeconds means format_lrc_timestamp is called on None and
raises, modelled as none. -/
def lrc_line (i : Nat) (s : Section) : Option String :=
  match s.startSeconds with
  | none => none
  | some q => some (format_lrc_timestamp q ++ " " ++ pad2 i ++ ". " ++ section_label s)

/-- All body lines, numbering from i; the first raising section aborts
the whole rendering (Python evaluates the lines sequentially). -/
def lrc_lines (i : Nat) : List Section → Option (List String)
  | [] => some []
  | s :: rest =>
      match lrc_line i s, lrc_lines (i + 1) rest with
      | some l, some ls => some (l :: ls)
      | _, _ => none

/-- Python generate_lrc_content (src/mixcloud_match_to_lrc.py, lines
71-96): the ar and ti header lines, a blank separator line, one numbered
line per section, joined with newlines plus a trailing newline. -/
def generate_lrc_content (username title : String) (sections : List Section) :
    Option String :=
  match lrc_lines 1 sections with
  | none => none
  | some body =>
      some (String.intercalate "\n"
        (["[ar:" ++ username ++ "]", "[ti:" ++ title ++ "]", ""] ++ body) ++ "\n")

/-! ## The section-processing core of process_audio_with_url

process_audio_with_url (src/mixcloud_match_to_lrc.py, lines 199-261)
fetches the tracklist and audio duration and then decides, in order:
skip when the fetch failed, skip when fewer than 2 sections, interpolate
evenly spaced timestamps when fewer than 2 sections carry a startSeconds
and the duration is truthy, skip when fewer than 2 are timed and the
duration is falsy, and otherwise keep the sections as fetched; finally it
renders the LRC text.  The model covers exactly this decision core, with
the fetch result and the mutagen duration as inputs; persisting the
rendered text (embedding, sidecar write) is I/O past the rendering point.
A TypeError raised while rendering is the pyTypeError outcome. -/

inductive ProcessOutcome : Type
  | skipApiError
  | skipTooFewSections (count : Nat)
  | skipNoTimingData
  | rendered (lrc : String)
  | pyTypeError
deriving DecidableEq

/-- Python truthiness of the optional float audio_duration: None and 0
are falsy, every other number (negative included) is truthy. -/
def truthy (d : Option ℚ) : Bool :=
  match d with
  | none => false
  | some q => q ≠ 0

/-- The interpolation loop (lines 236-238): section i (0-based) gets
startSeconds i * (audio_duration / len(sections)). -/
def interpolate_sections (sections : List Section) (d : ℚ) : List Section :=
  (List.range sections.length).zipWith
    (fun i s => { s with startSeconds := some ((i : ℚ) * (d / (sections.length : ℚ))) })
    sections

/-- The decision core of process_audio_with_url: from the fetched
sections (none = API failure) and the audio duration to a skip outcome, a
rendered LRC document, or an uncaught TypeError. -/
def process_sections (user stem : String) (fetched : Option (List Section))
    (audio_duration : Option ℚ) : ProcessOutcome :=
  match fetched with
  | none => .skipApiError
  | some sections =>
      if sections.length < 2 then .skipTooFewSections sections.length
      else
        let timed := sections.filter (fun s => s.startSeconds.isSome)
        if timed.length < 2 ∧ truthy audio_duration then
          match generate_lrc_content user stem
              (interpolate_sections sections (audio_duration.getD 0)) with
          | some lrc => .rendered lrc
          | none => .pyTypeError
        else if timed.length < 2 then .skipNoTimingData
        else
          match generate_lrc_content user stem sections with
          | some lrc => .rendered lrc
          | none => .pyTypeError

/-! ## The embedding functions

The on-disk audio file is modelled as a record: the lowercased file
extension, the outcome of loading it with each mutagen reader, and a flag
for an I/O failure while saving.  An ID3 tag set is a list of frames; an
MP4 or Vorbis tag set is an association list from comment keys to lists
of string values, where dict-style assignment replaces the value list
bound to a key.  Loading a file with OggOpus succeeds exactly when the
Ogg envelope holds Opus data, and with OggVorbis exactly when it holds
Vorbis data; any other load failure is folded into the load fields.  Each
embed function returns the Python boolean result paired with the
resulting file state; a failed call leaves the state unchanged. -/

inductive ID3Frame : Type
  | uslt (encoding : Nat) (lang : String) (desc : String) (text : String)
  | otherFrame (frameId : String) (payload : String)
deriving DecidableEq

/-- Does the frame match the USLT frame id (target of delall)? -/
def isUSLT (f : ID3Frame) : Bool :=
  match f with
  | .uslt _ _ _ _ => true
  | .otherFrame _ _ => false

/-- The lyrics text carried by a USLT frame, if this frame is one. -/
def usltText (f : ID3Frame) : Option String :=
  match f with
  | .uslt _ _ _ t => some t
  | .otherFrame _ _ => none

/-- Comment tags of MP4 and Ogg containers: key to value-list bindings. -/
abbrev CommentTags : Type := List (String × List String)

/-- Dict lookup in a comment tag set. -/
def getKey (t : CommentTags) (k : String) : Option (List String) :=
  match t with
  | [] => none
  | (k', v) :: rest => if k' = k then some v else getKey rest k

/-- Dict assignment in a comment tag set: replace the value list bound to
the key, or append a new binding. -/
def setKey (t : CommentTags) (k : String) (v : List String) : CommentTags :=
  match t with
  | [] => [(k, v)]
  | (k', v') :: rest => if k' = k then (k, v) :: rest else (k', v') :: setKey rest k v

inductive OggFlavor : Type
  | opus
  | vorbis
deriving DecidableEq

structure AudioFileSt : Type where
  suffix : String
  id3Load : Option (List ID3Frame)
  mp4LoadOk : Bool := true
  mp4Tags : Option CommentTags := none
  oggFlavor : OggFlavor := .opus
  oggTags : Option CommentTags := none
  ioError : Bool := false
deriving DecidableEq

/-- Python embed_lyrics (src/mixcloud_match_to_lrc.py, lines 99-133): load
the ID3 tag set, falling back to a fresh empty one when loading raises;
delete every USLT frame; add one UTF-8 eng USLT frame with the LRC text;
save.  Returns False only when saving raises. -/
def embed_lyrics (st : AudioFileSt) (lrc : String) : Bool × AudioFileSt :=
  let audio := st.id3Load.getD []
  let cleared := audio.filter (fun f => !(isUSLT f))
  let added := cleared ++ [ID3Frame.uslt 3 "eng" "" lrc]
  if st.ioError then (false, st) else (true, { st with id3Load := some added })

/-- Python embed_lyrics_mp4 (lines 136-149): open as MP4 (an exception
reports failure), create tags when absent, assign the lyrics atom, save. -/
def embed_lyrics_mp4 (st : AudioFileSt) (lrc : String) : Bool × AudioFileSt :=
  if !st.mp4LoadOk then (false, st)
  else
    let tags := st.mp4Tags.getD []
    let tags1 := setKey tags "\xa9lyr" [lrc]
    if st.ioError then (false, st) else (true, { st with mp4Tags := some tags1 })

/-- Python embed_lyrics_ogg_opus (lines 152-164): open as Ogg Opus (an
exception when the envelope is not Opus reports failure), create tags
when absent, assign the lyrics comment key, save. -/
def embed_lyrics_ogg_opus (st : AudioFileSt) (lrc : String) : Bool × AudioFileSt :=
  if st.oggFlavor ≠ OggFlavor.opus then (false, st)
  else
    let tags := st.oggTags.getD []
    let tags1 := setKey tags "lyrics" [lrc]
    if st.ioError then (false, st) else (true, { st with oggTags := some tags1 })

/-- Python embed_lyrics_ogg_vorbis (lines 167-180): the same, opening as
Ogg Vorbis and writing the same lyrics comment key. -/
def embed_lyrics_ogg_vorbis (st : AudioFileSt) (lrc : String) : Bool × AudioFileSt :=
  if st.oggFlavor ≠ OggFlavor.vorbis then (false, st)
  else
    let tags := st.oggTags.getD []
    let tags1 := setKey tags "lyrics" [lrc]
    if st.ioError then (false, st) else (true, { st with oggTags := some tags1 })

/-- Python embed_lyrics_any (lines 183-196): dispatch on the lowercased
extension; for the three Ogg extensions try Opus first and on failure
retry as Vorbis; unsupported extensions report failure. -/
def embed_lyrics_any (st : AudioFileSt) (lrc : String) : Bool × AudioFileSt :=
  if st.suffix = ".mp3" then embed_lyrics st lrc
  else if st.suffix = ".m4a" ∨ st.suffix = ".mp4" then embed_lyrics_mp4 st lrc
  else if st.suffix = ".opus" ∨ st.suffix = ".ogg" ∨ st.suffix = ".oga" then
    match embed_lyrics_ogg_opus st lrc with
    | (true, st1) => (true, st1)
    | (false, st1) => embed_lyrics_ogg_vorbis st1 lrc
  else (false, st)

/-- The lyrics fields an inspector would read back from the container the
extension selects: texts of USLT frames for mp3, the value list of the
lyrics atom for m4a and mp4, the value list of the lyrics comment key for
the Ogg extensions. -/
def lyricsFields (st : AudioFileSt) : List String :=
  if st.suffix = ".mp3" then (st.id3Load.getD []).filterMap usltText
  else if st.suffix = ".m4a" ∨ st.suffix = ".mp4" then
    (getKey (st.mp4Tags.getD []) "\xa9lyr").getD []
  else if st.suffix = ".opus" ∨ st.suffix = ".ogg" ∨ st.suffix = ".oga" then
    (getKey (st.oggTags.getD []) "lyrics").getD []
  else []

/-! ## mixcloud_orphans.find_orphan_tracks

The three paginated GraphQL fetchers are the external inputs: the model
takes them as an oracle record, where none is the None an API failure
returns.  The Python set of playlist slugs becomes a Finset. -/

structure Playlist : Type where
  name : String
  slug : String
deriving DecidableEq

structure Upload : Type where
  name : String
  slug : String
deriving DecidableEq

structure PlaylistItem : Type where
  name : String
  slug : String
deriving DecidableEq

structure MixcloudAPI : Type where
  playlists : Option (List Playlist)
  uploads : Option (List Upload)
  items : String → Option (List PlaylistItem)

/-- One iteration of the slug-collection loop of find_orphan_tracks
(src/mixcloud_orphans.py, lines 60-66): fetch the playlist items; the
guard if items is false both for a None fetch result and for an empty
list, and then the playlist contributes nothing; otherwise every item
slug is added to the set. -/
def slugStep (api : MixcloudAPI) (acc : Finset String) (p : Playlist) : Finset String :=
  match api.items p.slug with
  | some its => if its.isEmpty then acc else its.foldl (fun a it => insert it.slug a) acc
  | none => acc

/-- The slug-collection loop over all playlists, starting from the empty
set. -/
def collectPlaylistSlugs (api : MixcloudAPI) (pls : List Playlist) : Finset String :=
  pls.foldl (slugStep api) ∅

/-- Python find_orphan_tracks (src/mixcloud_orphans.py, lines 39-83):
None when the playlists fetch or the uploads fetch fails; otherwise the
uploads, the uploads whose slug is in no playlist, and the slug set. -/
def find_orphan_tracks (api : MixcloudAPI) :
    Option (List Upload × List Upload × Finset String) :=
  match api.playlists with
  | none => none
  | some pls =>
      let playlist_slugs := collectPlaylistSlugs api pls
      match api.uploads with
      | none => none
      | some ups =>
          some (ups, ups.filter (fun u => decide (u.slug ∉ playlist_slugs)), playlist_slugs)

/-! ## Theorems about extract_mixcloud_url (claims C2 and C3) -/

/-- Every accepted candidate is nonempty and contains the domain marker. -/
lemma tryKey_some_spec {tags : Tags} {k u : String} (h : tryKey tags k = some u) :
    u ≠ "" ∧ containsSub u "mixcloud.com" = true := by
  unfold tryKey at h
  split at h
  · split at h
    · cases h; assumption
    · cases h
  · cases h

/-- Every value a key scan returns passed the acceptance test. -/
lemma scanKeys_some_spec {tags : Tags} {u : String} :
    ∀ {ks : List String}, scanKeys tags ks = some u →
      u ≠ "" ∧ containsSub u "mixcloud.com" = true := by
  intro ks
  induction ks with
  | nil => intro h; cases h
  | cons k ks ih =>
      intro h
      unfold scanKeys at h
      rcases ht : tryKey tags k with _ | v
      · rw [ht] at h; exact ih h
      · rw [ht] at h; cases h; exact tryKey_some_spec ht

/-- A tag set whose only field is a structured user-defined purl frame
holding a URL without the platform domain. -/
def structuredNoDomainTags : Tags :=
  [("TXXX:purl", .textFrame ["https://example.com/user/mix/"] "purlframe")]

/-- C2 counterexample: the claim says a structured field that exists is
returned as-is even without the domain marker.  On this tag set the
TXXX:purl frame exists and normalizes to a URL, yet extract_mixcloud_url
returns none, because the source applies the mixcloud.com substring test
to structured fields too. -/
theorem extract_url_structured_domain_filter_ce :
    extract_mixcloud_url structuredNoDomainTags = none ∧
    normalize_tag_value (get_tag_value structuredNoDomainTags "TXXX:purl") =
      some "https://example.com/user/mix/" := by
  constructor
  · decide
  · decide

/-- C2 (amended): the domain-substring requirement applies to every
field, structured ones included: any URL extract_mixcloud_url returns is
nonempty and contains mixcloud.com, so a structured field whose value
lacks the marker is never returned. -/
theorem extract_url_always_contains_domain (tags : Tags) (url : String)
    (h : extract_mixcloud_url tags = some url) :
    url ≠ "" ∧ containsSub url "mixcloud.com" = true := by
  unfold extract_mixcloud_url at h
  rcases h1 : scanKeys tags ["TXXX:purl", "WXXX:purl", "WPUB", "WOAS"] with _ | v
  · rw [h1] at h
    rcases h2 : scanKeys tags ["purl", "url"] with _ | w
    · rw [h2] at h
      exact tryKey_some_spec h
    · rw [h2] at h; cases h; exact scanKeys_some_spec h2
  · rw [h1] at h; cases h; exact scanKeys_some_spec h1

/-- A tag set holding a mixcloud URL both in a plain purl field and in a
WPUB legacy URL frame. -/
def purlAndWpubTags : Tags :=
  [("purl", .listVal ["https://www.mixcloud.com/plain/purl/"] "purlfield"),
   ("WPUB", .urlFrame "https://www.mixcloud.com/legacy/wpub/" "wpubframe")]

/-- C3 counterexample: the claim says a plain purl field outranks the
legacy WPUB frame.  On this tag set, which carries both, the WPUB value
is returned, not the plain purl value: the source scans WPUB and WOAS in
its first loop, before the plain purl and url fields. -/
theorem extract_url_wpub_before_plain_ce :
    extract_mixcloud_url purlAndWpubTags = some "https://www.mixcloud.com/legacy/wpub/" ∧
    "https://www.mixcloud.com/legacy/wpub/" ≠ "https://www.mixcloud.com/plain/purl/" := by
  constructor
  · decide
  · decide

/-- C3 (amended): the structured search order is TXXX:purl, WXXX:purl,
WPUB, WOAS, then the plain purl and url fields, then the comment: when
neither user-defined purl frame matches and the WPUB frame is accepted,
its value is returned regardless of any plain purl or url field. -/
theorem extract_url_wpub_priority (tags : Tags) (u : String)
    (h1 : tryKey tags "TXXX:purl" = none) (h2 : tryKey tags "WXXX:purl" = none)
    (h3 : tryKey tags "WPUB" = some u) :
    extract_mixcloud_url tags = some u := by
  simp [extract_mixcloud_url, scanKeys, h1, h2, h3]

/-- Witness for the amended C3 theorem at the counterexample tag set. -/
theorem extract_url_wpub_priority_witness :
    extract_mixcloud_url purlAndWpubTags = some "https://www.mixcloud.com/legacy/wpub/" :=
  extract_url_wpub_priority purlAndWpubTags "https://www.mixcloud.com/legacy/wpub/"
    (by decide) (by decide) (by decide)

/-- A tag set whose plain url field holds a mixcloud URL. -/
def plainUrlTags : Tags :=
  [("url", .listVal ["https://www.mixcloud.com/someone/mix/"] "urlfield")]

/-- Witness for the amended C2 theorem: on a concrete tag set the
extracted URL indeed contains the domain marker. -/
theorem extract_url_always_contains_domain_witness :
    "https://www.mixcloud.com/someone/mix/" ≠ "" ∧
    containsSub "https://www.mixcloud.com/someone/mix/" "mixcloud.com" = true :=
  extract_url_always_contains_domain plainUrlTags
    "https://www.mixcloud.com/someone/mix/" (by decide)

/-! ## Theorems about the section-processing core (claims C1, C4, C5) -/

/-- Concrete timestamp evaluations used below. -/
lemma format_ts_zero : format_lrc_timestamp 0 = "[00:00.00]" := by
  rw [format_lrc_timestamp_eq 0 0 0 (by norm_num) (by norm_num [round_eq])]
  decide

lemma format_ts_neg300 : format_lrc_timestamp (-300) = "[-5:00.00]" := by
  rw [format_lrc_timestamp_eq (-300) (-5) 0 (by norm_num) (by norm_num [round_eq])]
  decide

/-- Rendering aborts with the TypeError as soon as a section has a null
startSeconds. -/
lemma lrc_lines_none_of_null :
    ∀ (i : Nat) (sections : List Section), (∃ s ∈ sections, s.startSeconds = none) →
      lrc_lines i sections = none := by
  intro i sections
  induction sections generalizing i with
  | nil => rintro ⟨s, hs, _⟩; cases hs
  | cons a rest ih =>
      rintro ⟨s, hs, hnone⟩
      rcases List.mem_cons.mp hs with rfl | hmem
      · unfold lrc_lines lrc_line
        rw [hnone]
      · unfold lrc_lines
        rw [ih (i + 1) ⟨s, hmem, hnone⟩]
        cases lrc_line i a <;> rfl

/-- The whole document fails to render when a section has a null
startSeconds. -/
lemma generate_lrc_content_none_of_null (user stem : String) (sections : List Section)
    (h : ∃ s ∈ sections, s.startSeconds = none) :
    generate_lrc_content user stem sections = none := by
  unfold generate_lrc_content
  rw [lrc_lines_none_of_null 1 sections h]

/-- In the branch that keeps at least two explicitly timed sections, a
remaining null startSeconds makes processing end in the TypeError. -/
lemma process_sections_typeerror_aux (user stem : String) (sections : List Section)
    (d : Option ℚ) (h2 : 2 ≤ sections.length)
    (ht : 2 ≤ (sections.filter fun s => s.startSeconds.isSome).length)
    (hnull : ∃ s ∈ sections, s.startSeconds = none) :
    process_sections user stem (some sections) d = .pyTypeError := by
  simp only [process_sections]
  rw [if_neg (Nat.not_lt.mpr h2)]
  rw [if_neg (fun hc => Nat.not_lt.mpr ht hc.1)]
  rw [if_neg (Nat.not_lt.mpr ht)]
  rw [generate_lrc_content_none_of_null user stem sections hnull]

/-- A tracklist with three sections, two explicitly timed and one with a
null startSeconds. -/
def partialTimedSections : List Section :=
  [{ typename := .trackSection, startSeconds := some 0, artistName := "A", songName := "S1" },
   { typename := .trackSection, startSeconds := some 10, artistName := "B", songName := "S2" },
   { typename := .trackSection, startSeconds := none, artistName := "C", songName := "S3" }]

/-- C1 counterexample: for a tracklist of 3 sections with 2 explicit
startSeconds and 1 null one, processing neither skips nor renders: it
ends in the uncaught TypeError raised when format_lrc_timestamp is
applied to the null value. -/
theorem process_partial_timing_typeerror_ce :
    process_sections "user" "mix" (some partialTimedSections) (some 600) = .pyTypeError ∧
    2 ≤ partialTimedSections.length ∧
    2 ≤ (partialTimedSections.filter fun s => s.startSeconds.isSome).length ∧
    (∃ s ∈ partialTimedSections, s.startSeconds = none) := by
  refine ⟨?_, by decide, by decide, by decide⟩
  exact process_sections_typeerror_aux "user" "mix" partialTimedSections (some 600)
    (by decide) (by decide) (by decide)

/-- C1 (amended): for every fetched tracklist with at least 2 sections of
which at least 2 carry an explicit startSeconds but at least one section
is still null, processing retains the sections and then raises a
TypeError while rendering; it does not complete with a typed skip outcome
or a rendered document for this data shape. -/
theorem process_partial_timing_typeerror (user stem : String) (sections : List Section)
    (d : Option ℚ) (h2 : 2 ≤ sections.length)
    (ht : 2 ≤ (sections.filter fun s => s.startSeconds.isSome).length)
    (hnull : ∃ s ∈ sections, s.startSeconds = none) :
    process_sections user stem (some sections) d = .pyTypeError :=
  process_sections_typeerror_aux user stem sections d h2 ht hnull

/-- Witness for the amended C1 theorem at a concrete tracklist. -/
theorem process_partial_timing_typeerror_witness :
    process_sections "u" "t" (some partialTimedSections) none = .pyTypeError :=
  process_partial_timing_typeerror "u" "t" partialTimedSections none
    (by decide) (by decide) (by decide)

/-- With fewer than two timed sections and a falsy duration (None or 0),
processing skips with the no-timing-data outcome. -/
lemma process_sections_skip_aux (user stem : String) (sections : List Section)
    (d : Option ℚ) (h2 : 2 ≤ sections.length)
    (ht : (sections.filter fun s => s.startSeconds.isSome).length < 2)
    (hd : truthy d = false) :
    process_sections user stem (some sections) d = .skipNoTimingData := by
  simp only [process_sections]
  rw [if_neg (Nat.not_lt.mpr h2)]
  rw [if_neg (fun hc => by rw [hd] at hc; exact Bool.noConfusion hc.2)]
  rw [if_pos ht]

/-- With fewer than two timed sections and a truthy duration, processing
interpolates and renders the interpolated sections. -/
lemma process_sections_interpolates (user stem : String) (sections : List Section) (q : ℚ)
    (h2 : 2 ≤ sections.length)
    (ht : (sections.filter fun s => s.startSeconds.isSome).length < 2)
    (hq : q ≠ 0) :
    process_sections user stem (some sections) (some q) =
      (match generate_lrc_content user stem (interpolate_sections sections q) with
       | some lrc => ProcessOutcome.rendered lrc
       | none => ProcessOutcome.pyTypeError) := by
  simp only [process_sections]
  rw [if_neg (Nat.not_lt.mpr h2)]
  rw [if_pos ⟨ht, by simp [truthy, hq]⟩]
  simp only [Option.getD_some]

/-- Two sections with no timing data at all. -/
def untimedPair : List Section :=
  [{ typename := .trackSection, startSeconds := none, artistName := "A", songName := "S1" },
   { typename := .trackSection, startSeconds := none, artistName := "B", songName := "S2" }]

/-- C4 counterexample: the claim says a negative audio_duration is
treated like an absent one (no-timing-data skip, no interpolation).  With
duration -600 the code instead interpolates from the negative value and
renders a document with a negative cue point, while the absent duration
does skip. -/
theorem process_negative_duration_ce :
    process_sections "user" "mix" (some untimedPair) (some (-600)) =
      .rendered "[ar:user]\n[ti:mix]\n\n[00:00.00] 01. A – S1\n[-5:00.00] 02. B – S2\n" ∧
    process_sections "user" "mix" (some untimedPair) none = .skipNoTimingData := by
  constructor
  · rw [process_sections_interpolates "user" "mix" untimedPair (-600)
      (by decide) (by decide) (by norm_num)]
    simp only [interpolate_sections, untimedPair, List.length_cons, List.length_nil,
      List.range_succ, List.range_zero, List.nil_append, List.cons_append,
      List.zipWith_cons_cons, List.zipWith_nil_left,
      generate_lrc_content, lrc_lines, lrc_line, section_label]
    norm_num
    rw [format_ts_zero, format_ts_neg300]
    decide
  · exact process_sections_skip_aux "user" "mix" untimedPair none
      (by decide) (by decide) rfl

/-- C4 (amended): an audio_duration of 0 is treated the same as an absent
duration — with at least 2 sections but fewer than 2 timed ones,
processing fails with the no-timing-data skip in both cases.  (A negative
duration is not treated as absent; see the counterexample.) -/
theorem process_zero_duration_skips (user stem : String) (sections : List Section)
    (h2 : 2 ≤ sections.length)
    (ht : (sections.filter fun s => s.startSeconds.isSome).length < 2) :
    process_sections user stem (some sections) (some 0) = .skipNoTimingData ∧
    process_sections user stem (some sections) none = .skipNoTimingData :=
  ⟨process_sections_skip_aux user stem sections (some 0) h2 ht (by simp [truthy]),
   process_sections_skip_aux user stem sections none h2 ht rfl⟩

/-- Witness for the amended C4 theorem at a concrete tracklist. -/
theorem process_zero_duration_skips_witness :
    process_sections "u" "t" (some untimedPair) (some 0) = .skipNoTimingData ∧
    process_sections "u" "t" (some untimedPair) none = .skipNoTimingData :=
  process_zero_duration_skips "u" "t" untimedPair (by decide) (by decide)

/-- Mapping startSeconds over a zipWith that only rewrites startSeconds
from the index recovers the map over the indices. -/
lemma zipWith_update_map_start (v : ℕ → Option ℚ) :
    ∀ (l1 : List ℕ) (l2 : List Section), l1.length ≤ l2.length →
      (List.zipWith (fun i s => { s with startSeconds := v i }) l1 l2).map
        (fun s => s.startSeconds) = l1.map v := by
  intro l1
  induction l1 with
  | nil => intro l2 _; simp
  | cons a l1 ih =>
      intro l2 hl
      cases l2 with
      | nil => simp at hl
      | cons b l2 =>
          simp only [List.zipWith_cons_cons, List.map_cons]
          rw [ih l2 (by simpa using hl)]

/-- The interpolated timestamps, one per section index. -/
lemma interpolate_sections_map_start (sections : List Section) (d : ℚ) :
    (interpolate_sections sections d).map (fun s => s.startSeconds) =
      (List.range sections.length).map
        (fun i : ℕ => some ((i : ℚ) * (d / (sections.length : ℚ)))) := by
  unfold interpolate_sections
  exact zipWith_update_map_start _ (List.range sections.length) sections (by simp)

/-- C5: with n ≥ 2 sections, fewer than 2 explicit startSeconds and a
positive duration d, processing renders the interpolated sections;
section i (0-based) receives the timestamp i * (d / n); the first derived
timestamp is 0; and every derived timestamp, the last included, is
strictly below d. -/
theorem interpolation_evenly_spaced (user stem : String) (d : ℚ) (hd : 0 < d)
    (sections : List Section) (h2 : 2 ≤ sections.length)
    (ht : (sections.filter fun s => s.startSeconds.isSome).length < 2) :
    process_sections user stem (some sections) (some d) =
      (match generate_lrc_content user stem (interpolate_sections sections d) with
       | some lrc => ProcessOutcome.rendered lrc
       | none => ProcessOutcome.pyTypeError) ∧
    (interpolate_sections sections d).map (fun s => s.startSeconds) =
      (List.range sections.length).map
        (fun i : ℕ => some ((i : ℚ) * (d / (sections.length : ℚ)))) ∧
    ((interpolate_sections sections d).map (fun s => s.startSeconds)).head? =
      some (some 0) ∧
    ∀ i : ℕ, i < sections.length → (i : ℚ) * (d / (sections.length : ℚ)) < d := by
  refine ⟨process_sections_interpolates user stem sections d h2 ht (ne_of_gt hd),
    interpolate_sections_map_start sections d, ?_, ?_⟩
  · rw [interpolate_sections_map_start sections d]
    obtain ⟨m, hm⟩ : ∃ m, sections.length = m + 2 := ⟨sections.length - 2, by omega⟩
    rw [hm, show m + 2 = (m + 1) + 1 from rfl, List.range_succ_eq_map]
    simp
  · intro i hi
    have hn0 : (0:ℚ) < (sections.length : ℚ) := by
      exact_mod_cast lt_of_lt_of_le (by norm_num) h2
    have hdn : (0:ℚ) < d / (sections.length : ℚ) := div_pos hd hn0
    calc (i : ℚ) * (d / (sections.length : ℚ))
        < (sections.length : ℚ) * (d / (sections.length : ℚ)) :=
          mul_lt_mul_of_pos_right (by exact_mod_cast hi) hdn
      _ = d := by rw [mul_comm, div_mul_cancel₀ d hn0.ne']

/-- Three sections with no timing data (the spec's interpolation
example). -/
def untimedTriple : List Section :=
  [{ typename := .trackSection, startSeconds := none, artistName := "A1", songName := "S1" },
   { typename := .trackSection, startSeconds := none, artistName := "A2", songName := "S2" },
   { typename := .trackSection, startSeconds := none, artistName := "A3", songName := "S3" }]

/-- Witness for C5: with duration 600 and 3 untimed sections the derived
timestamps are exactly 0, 200 and 400 seconds. -/
theorem interpolation_evenly_spaced_witness :
    (interpolate_sections untimedTriple 600).map (fun s => s.startSeconds) =
      [some 0, some 200, some 400] := by
  have h := (interpolation_evenly_spaced "user" "mix" 600 (by norm_num) untimedTriple
    (by decide) (by decide)).2.1
  rw [h]
  norm_num [untimedTriple, List.range_succ]

/-! ## Theorems about format_lrc_timestamp (claim C6) -/

/-- C6 counterexample: the claim says the SS field always denotes a value
strictly below 60.  At 59.999 seconds the minutes field stays 00 while
the 05.2f rounding carries the seconds up to 60, rendering [00:60.00]. -/
theorem format_sixty_rollover_ce :
    format_lrc_timestamp 59.999 = "[00:60.00]" := by
  rw [format_lrc_timestamp_eq 59.999 0 6000 (by norm_num) (by norm_num [round_eq])]
  decide

/-- C6 (amended): MM is total minutes of unbounded width zero-padded to
at least 2 digits and CC is rounded (not truncated) hundredths, and the
four spec examples hold; but SS is not always strictly below 60 — the
rounded remainder can render as 60, as at 59.999 seconds. -/
theorem format_lrc_timestamp_examples :
    format_lrc_timestamp 0 = "[00:00.00]" ∧
    format_lrc_timestamp 65.5 = "[01:05.50]" ∧
    format_lrc_timestamp 3661 = "[61:01.00]" ∧
    format_lrc_timestamp 7200 = "[120:00.00]" ∧
    format_lrc_timestamp 0.006 = "[00:00.01]" ∧
    format_lrc_timestamp 59.999 = "[00:60.00]" := by
  refine ⟨?_, ?_, ?_, ?_, ?_, ?_⟩
  · rw [format_lrc_timestamp_eq 0 0 0 (by norm_num) (by norm_num [round_eq])]
    decide
  · rw [format_lrc_timestamp_eq 65.5 1 550 (by norm_num) (by norm_num [round_eq])]
    decide
  · rw [format_lrc_timestamp_eq 3661 61 100 (by norm_num) (by norm_num [round_eq])]
    decide
  · rw [format_lrc_timestamp_eq 7200 120 0 (by norm_num) (by norm_num [round_eq])]
    decide
  · rw [format_lrc_timestamp_eq 0.006 0 1 (by norm_num) (by norm_num [round_eq])]
    decide
  · rw [format_lrc_timestamp_eq 59.999 0 6000 (by norm_num) (by norm_num [round_eq])]
    decide

/-! ## Theorems about the embedding functions (claims C7, C8, C10) -/

/-- Dict assignment then lookup at the same key yields the new value. -/
lemma getKey_setKey (t : CommentTags) (k : String) (v : List String) :
    getKey (setKey t k v) k = some v := by
  induction t with
  | nil => simp [setKey, getKey]
  | cons p rest ih =>
      obtain ⟨k', v'⟩ := p
      by_cases h : k' = k
      · subst h; simp [setKey, getKey]
      · simp [setKey, getKey, h, ih]

/-- After delall no USLT text survives. -/
lemma filterMap_uslt_filtered (l : List ID3Frame) :
    (l.filter (fun f => !(isUSLT f))).filterMap usltText = [] := by
  induction l with
  | nil => rfl
  | cons f rest ih =>
      cases f with
      | uslt e lg d tx => simpa [isUSLT, List.filter] using ih
      | otherFrame i p => simpa [isUSLT, usltText, List.filter] using ih

/-- A successful mp3 embed yields exactly the cleared frames plus the one
new USLT frame. -/
lemma embed_lyrics_success {st st' : AudioFileSt} {t : String}
    (h : embed_lyrics st t = (true, st')) :
    st' = { st with
            id3Load := some ((st.id3Load.getD []).filter (fun f => !(isUSLT f)) ++
              [ID3Frame.uslt 3 "eng" "" t]) } := by
  simp only [embed_lyrics] at h
  split at h
  · simp at h
  · injection h with h1 h2
    exact h2.symm

/-- A successful mp4 embed assigns the lyrics atom. -/
lemma embed_lyrics_mp4_success {st st' : AudioFileSt} {t : String}
    (h : embed_lyrics_mp4 st t = (true, st')) :
    st' = { st with mp4Tags := some (setKey (st.mp4Tags.getD []) "\xa9lyr" [t]) } := by
  simp only [embed_lyrics_mp4] at h
  split at h
  · simp at h
  · split at h
    · simp at h
    · injection h with h1 h2
      exact h2.symm

/-- A successful Ogg Opus embed assigns the lyrics comment key. -/
lemma embed_lyrics_ogg_opus_success {st st' : AudioFileSt} {t : String}
    (h : embed_lyrics_ogg_opus st t = (true, st')) :
    st' = { st with oggTags := some (setKey (st.oggTags.getD []) "lyrics" [t]) } := by
  simp only [embed_lyrics_ogg_opus] at h
  split at h
  · simp at h
  · split at h
    · simp at h
    · injection h with h1 h2
      exact h2.symm

/-- A successful Ogg Vorbis embed assigns the lyrics comment key. -/
lemma embed_lyrics_ogg_vorbis_success {st st' : AudioFileSt} {t : String}
    (h : embed_lyrics_ogg_vorbis st t = (true, st')) :
    st' = { st with oggTags := some (setKey (st.oggTags.getD []) "lyrics" [t]) } := by
  simp only [embed_lyrics_ogg_vorbis] at h
  split at h
  · simp at h
  · split at h
    · simp at h
    · injection h with h1 h2
      exact h2.symm

/-- A failed Ogg Opus embed leaves the file unchanged. -/
lemma embed_lyrics_ogg_opus_fail {st st1 : AudioFileSt} {t : String}
    (h : embed_lyrics_ogg_opus st t = (false, st1)) : st1 = st := by
  simp only [embed_lyrics_ogg_opus] at h
  split at h
  · injection h with h1 h2
    exact h2.symm
  · split at h
    · injection h with h1 h2
      exact h2.symm
    · simp at h

/-- Any successful embed leaves exactly one lyrics field holding the
embedded text; the extension is untouched. -/
lemma embed_any_success_fields {st st' : AudioFileSt} {t : String}
    (h : embed_lyrics_any st t = (true, st')) :
    lyricsFields st' = [t] ∧ st'.suffix = st.suffix := by
  unfold embed_lyrics_any at h
  split at h
  · rename_i hmp3
    rw [embed_lyrics_success h]
    refine ⟨?_, rfl⟩
    simp only [lyricsFields, hmp3, if_pos, Option.getD_some]
    rw [List.filterMap_append, filterMap_uslt_filtered]
    simp [usltText]
  · rename_i hmp3
    split at h
    · rename_i hmp4
      rw [embed_lyrics_mp4_success h]
      refine ⟨?_, rfl⟩
      simp only [lyricsFields, hmp3, hmp4, if_pos, if_neg, Option.getD_some]
      rw [getKey_setKey]
      rfl
    · rename_i hmp4
      split at h
      · rename_i hogg
        rcases hop : embed_lyrics_ogg_opus st t with ⟨b, st1⟩
        rw [hop] at h
        cases b with
        | true =>
            simp only at h
            injection h with h1 h2
            subst h2
            rw [embed_lyrics_ogg_opus_success hop]
            refine ⟨?_, rfl⟩
            simp only [lyricsFields, hmp3, hmp4, hogg, if_pos, if_neg, Option.getD_some]
            rw [getKey_setKey]
            rfl
        | false =>
            simp only at h
            rw [embed_lyrics_ogg_opus_fail hop] at h
            rw [embed_lyrics_ogg_vorbis_success h]
            refine ⟨?_, rfl⟩
            simp only [lyricsFields, hmp3, hmp4, hogg, if_pos, if_neg, Option.getD_some]
            rw [getKey_setKey]
            rfl
      · simp at h

/-- C7: for an Ogg-extension file, when the Opus-flavored attempt fails
for any reason and the Vorbis-flavored retry succeeds, embed_lyrics_any
reports success and the resulting container carries the LRC text under
the same lyrics comment key. -/
theorem embed_ogg_fallback_success (st : AudioFileSt) (lrc : String)
    (hsuf : st.suffix = ".opus" ∨ st.suffix = ".ogg" ∨ st.suffix = ".oga")
    (hopus : (embed_lyrics_ogg_opus st lrc).1 = false)
    (hvorb : (embed_lyrics_ogg_vorbis st lrc).1 = true) :
    (embed_lyrics_any st lrc).1 = true ∧
    getKey ((embed_lyrics_any st lrc).2.oggTags.getD []) "lyrics" = some [lrc] := by
  have hmp3 : ¬ st.suffix = ".mp3" := by
    rcases hsuf with h | h | h <;> rw [h] <;> decide
  have hmp4 : ¬ (st.suffix = ".m4a" ∨ st.suffix = ".mp4") := by
    rcases hsuf with h | h | h <;> rw [h] <;> decide
  unfold embed_lyrics_any
  rw [if_neg hmp3, if_neg hmp4, if_pos hsuf]
  rcases hop : embed_lyrics_ogg_opus st lrc with ⟨b, st1⟩
  rw [hop] at hopus
  cases b with
  | true => cases hopus
  | false =>
      simp only
      have hst1 : st1 = st := embed_lyrics_ogg_opus_fail hop
      subst hst1
      rcases hv : embed_lyrics_ogg_vorbis st1 lrc with ⟨b2, st2⟩
      rw [hv] at hvorb
      cases b2 with
      | false => cases hvorb
      | true =>
          rw [embed_lyrics_ogg_vorbis_success hv]
          exact ⟨rfl, by rw [Option.getD_some, getKey_setKey]⟩

/-- A Vorbis-flavored file with the generic ogg extension and no tags
yet. -/
def vorbisOggSt : AudioFileSt :=
  { suffix := ".ogg", id3Load := none, oggFlavor := .vorbis }

/-- Witness for C7 on a Vorbis-flavored ogg file, where the Opus attempt
fails and the fallback succeeds. -/
theorem embed_ogg_fallback_success_witness :
    (embed_lyrics_any vorbisOggSt "[ar:u]\n").1 = true ∧
    getKey ((embed_lyrics_any vorbisOggSt "[ar:u]\n").2.oggTags.getD []) "lyrics" =
      some ["[ar:u]\n"] :=
  embed_ogg_fallback_success vorbisOggSt "[ar:u]\n" (Or.inr (Or.inl rfl))
    (by decide) (by decide)

/-- C8: embedding is an idempotent overwrite — for every container state
and every pair of LRC texts, after a successful embed of the first text
the container holds exactly one lyrics field with that text, and a second
successful embed leaves exactly one lyrics field holding the second text
(never an appended duplicate); the initial state may hold any number of
pre-existing USLT frames. -/
theorem embed_overwrite_idempotent (st : AudioFileSt) (t1 t2 : String)
    (st1 st2 : AudioFileSt)
    (h1 : embed_lyrics_any st t1 = (true, st1))
    (h2 : embed_lyrics_any st1 t2 = (true, st2)) :
    lyricsFields st1 = [t1] ∧ lyricsFields st2 = [t2] :=
  ⟨(embed_any_success_fields h1).1, (embed_any_success_fields h2).1⟩

/-- An mp3 file whose tag set already carries two USLT frames. -/
def mp3TwoUsltSt : AudioFileSt :=
  { suffix := ".mp3",
    id3Load := some [ID3Frame.uslt 3 "eng" "" "old lyrics",
      ID3Frame.otherFrame "TIT2" "Title",
      ID3Frame.uslt 0 "eng" "x" "older lyrics"] }

/-- Witness for C8: embedding twice into an mp3 that started with two
USLT frames leaves exactly one lyrics field with the latest text. -/
theorem embed_overwrite_idempotent_witness :
    lyricsFields (embed_lyrics_any mp3TwoUsltSt "L1").2 = ["L1"] ∧
    lyricsFields (embed_lyrics_any (embed_lyrics_any mp3TwoUsltSt "L1").2 "L2").2 =
      ["L2"] :=
  embed_overwrite_idempotent mp3TwoUsltSt "L1" "L2" _ _ (by decide) (by decide)

/-- C10: on an mp3 whose ID3 loading raises (no ID3 header), embed_lyrics
builds a fresh tag set, adds the USLT frame and reports success. -/
theorem embed_fresh_id3_success (st : AudioFileSt) (lrc : String)
    (hload : st.id3Load = none) (hio : st.ioError = false) :
    embed_lyrics st lrc =
      (true, { st with id3Load := some [ID3Frame.uslt 3 "eng" "" lrc] }) := by
  simp [embed_lyrics, hload, hio]

/-- An mp3 file with no ID3 header at all. -/
def freshMp3St : AudioFileSt :=
  { suffix := ".mp3", id3Load := none }

/-- Witness for C10 on a concrete untagged mp3. -/
theorem embed_fresh_id3_success_witness :
    embed_lyrics freshMp3St "[ti:t]\n" =
      (true, { freshMp3St with id3Load := some [ID3Frame.uslt 3 "eng" "" "[ti:t]\n"] }) :=
  embed_fresh_id3_success freshMp3St "[ti:t]\n" rfl rfl

/-! ## Theorems about find_orphan_tracks (claim C9) -/

/-- Membership after folding item slugs into the accumulator. -/
lemma mem_items_foldl (s : String) :
    ∀ (its : List PlaylistItem) (acc : Finset String),
      s ∈ its.foldl (fun a it => insert it.slug a) acc ↔
        s ∈ acc ∨ s ∈ its.map PlaylistItem.slug := by
  intro its
  induction its with
  | nil => intro acc; simp
  | cons it rest ih =>
      intro acc
      rw [List.foldl_cons, ih]
      simp [Finset.mem_insert]
      tauto

/-- Membership after one playlist step: only a successful, nonempty items
fetch contributes its slugs. -/
lemma mem_slugStep (api : MixcloudAPI) (acc : Finset String) (p : Playlist) (s : String) :
    s ∈ slugStep api acc p ↔
      s ∈ acc ∨ ∃ its, api.items p.slug = some its ∧ s ∈ its.map PlaylistItem.slug := by
  unfold slugStep
  cases h : api.items p.slug with
  | none => simp [h]
  | some its =>
      by_cases he : its.isEmpty
      · rw [List.isEmpty_iff] at he
        subst he
        simp [h]
      · dsimp only
        rw [if_neg he, mem_items_foldl]
        simp [h]

/-- Membership in the collected slug set, generalized over the
accumulator. -/
lemma mem_collect_aux (api : MixcloudAPI) (s : String) :
    ∀ (pls : List Playlist) (acc : Finset String),
      s ∈ pls.foldl (slugStep api) acc ↔
        s ∈ acc ∨
          ∃ p ∈ pls, ∃ its, api.items p.slug = some its ∧ s ∈ its.map PlaylistItem.slug := by
  intro pls
  induction pls with
  | nil => intro acc; simp
  | cons p rest ih =>
      intro acc
      rw [List.foldl_cons, ih, mem_slugStep]
      simp only [List.mem_cons]
      constructor
      · rintro ((h | ⟨its, h1, h2⟩) | ⟨p', hp', its, h1, h2⟩)
        · exact Or.inl h
        · exact Or.inr ⟨p, Or.inl rfl, its, h1, h2⟩
        · exact Or.inr ⟨p', Or.inr hp', its, h1, h2⟩
      · rintro (h | ⟨p', rfl | hp', its, h1, h2⟩)
        · exact Or.inl (Or.inl h)
        · exact Or.inl (Or.inr ⟨its, h1, h2⟩)
        · exact Or.inr ⟨p', hp', its, h1, h2⟩

/-- A slug is collected exactly when some playlist whose items fetch
succeeded contains it; a playlist whose fetch failed contributes
nothing. -/
lemma mem_collectPlaylistSlugs (api : MixcloudAPI) (pls : List Playlist) (s : String) :
    s ∈ collectPlaylistSlugs api pls ↔
      ∃ p ∈ pls, ∃ its, api.items p.slug = some its ∧ s ∈ its.map PlaylistItem.slug := by
  unfold collectPlaylistSlugs
  rw [mem_collect_aux]
  simp

/-- C9: when the playlists fetch and the uploads fetch both succeed,
find_orphan_tracks returns a result even if some playlist items fetch
returned None: the failed playlist is silently treated as empty (it
contributes no slugs — the slug set mentions only playlists whose fetch
succeeded), and every upload contained in no successfully fetched
playlist is classified as an orphan. -/
theorem find_orphan_tracks_item_failure (api : MixcloudAPI)
    (pls : List Playlist) (ups : List Upload)
    (hp : api.playlists = some pls) (hu : api.uploads = some ups)
    (p0 : Playlist) (_hp0 : p0 ∈ pls) (_h0 : api.items p0.slug = none) :
    find_orphan_tracks api =
      some (ups,
        ups.filter (fun u => decide (u.slug ∉ collectPlaylistSlugs api pls)),
        collectPlaylistSlugs api pls) ∧
    (∀ s, s ∈ collectPlaylistSlugs api pls ↔
      ∃ p ∈ pls, ∃ its, api.items p.slug = some its ∧ s ∈ its.map PlaylistItem.slug) ∧
    ∀ u ∈ ups,
      (∀ p ∈ pls, ∀ its, api.items p.slug = some its → u.slug ∉ its.map PlaylistItem.slug) →
      u ∈ ups.filter (fun u => decide (u.slug ∉ collectPlaylistSlugs api pls)) := by
  refine ⟨by simp [find_orphan_tracks, hp, hu], mem_collectPlaylistSlugs api pls, ?_⟩
  intro u hu' hnone
  rw [List.mem_filter]
  refine ⟨hu', ?_⟩
  rw [decide_eq_true_eq, mem_collectPlaylistSlugs]
  rintro ⟨p, hpmem, its, h1, h2⟩
  exact hnone p hpmem its h1 h2

/-- A user with two playlists, of which the second fails to fetch, and
two uploads, of which the second appears only in the failed playlist. -/
def orphanApiW : MixcloudAPI :=
  { playlists := some [⟨"Good", "good"⟩, ⟨"Bad", "bad"⟩],
    uploads := some [⟨"In playlist", "t1"⟩, ⟨"Only in bad", "t2"⟩],
    items := fun s => if s = "good" then some [⟨"Track", "t1"⟩] else none }

/-- Witness for C9: with the second playlist failing to fetch, the
orphan finder still returns a result, and the upload contained only in
that playlist ends up among the orphans. -/
theorem find_orphan_tracks_item_failure_witness :
    (find_orphan_tracks orphanApiW).isSome = true ∧
    Upload.mk "Only in bad" "t2" ∈
      ([Upload.mk "In playlist" "t1", Upload.mk "Only in bad" "t2"].filter
        (fun u => decide (u.slug ∉ collectPlaylistSlugs orphanApiW
          [Playlist.mk "Good" "good", Playlist.mk "Bad" "bad"]))) := by
  have h := find_orphan_tracks_item_failure orphanApiW
    [⟨"Good", "good"⟩, ⟨"Bad", "bad"⟩]
    [⟨"In playlist", "t1"⟩, ⟨"Only in bad", "t2"⟩] rfl rfl
    ⟨"Bad", "bad"⟩ (by simp) rfl
  refine ⟨by rw [h.1]; rfl, ?_⟩
  apply h.2.2 _ (by simp)
  intro p hpmem its hits
  rcases List.mem_cons.mp hpmem with rfl | hpmem'
  · simp [orphanApiW] at hits
    subst hits
    decide
  · rcases List.mem_cons.mp hpmem' with rfl | hpmem''
    · simp [orphanApiW] at hits
    · cases hpmem''

end MixcloudBackup
